import Mathlib

/-!
Shallow embedding of the attendance notification server (src/Server.js, the
enhanced variant carrying the rate limiter and the extended validators): the
validators, the notification renderers, the batch dispatcher behind
POST /api/send-absent-emails, and the rate governor.

The ambient JavaScript runtime — Date parsing, the Intl formatters, the
clock, the configured transport — is modelled by an explicit environment
`Env`; each field corresponds to one runtime facility the code calls.
Machine integers do not occur: timestamps are epoch milliseconds as Nat
(note that the JS subtraction `now - time` compared with `< window` agrees
with truncated Nat subtraction, since a negative difference and a zero one
are both below any positive window).
-/

namespace Mooon

/-- JS whitespace class: the characters matched by the RegExp class `\s`
and stripped by String.prototype.trim. -/
def jsIsSpace (c : Char) : Bool :=
  c = ' ' || c = '\t' || c = '\n' || c.val = 11 || c.val = 12 || c = '\r' ||
  c.val = 0xa0 || c.val = 0x1680 || (0x2000 ≤ c.val && c.val ≤ 0x200a) ||
  c.val = 0x2028 || c.val = 0x2029 || c.val = 0x202f || c.val = 0x205f ||
  c.val = 0x3000 || c.val = 0xfeff

/-- JS String.prototype.trim on a character list: whitespace removed from
both ends. -/
def jsTrimList (l : List Char) : List Char :=
  ((l.dropWhile jsIsSpace).reverse.dropWhile jsIsSpace).reverse

/-- JS String.prototype.trim. -/
def jsTrim (s : String) : String := ⟨jsTrimList s.toList⟩

/-- JS truthiness of an optional string field: undefined, null and the
empty string are falsy; every other string is truthy. -/
def truthy : Option String → Bool
  | none => false
  | some s => s != ""

/-- The test of the email RegExp of Server.js on a character list. The
pattern is: one or more characters that are neither whitespace nor at-sign,
an at-sign, one or more such characters, a dot, one or more such characters,
anchored at both ends. Equivalently: no whitespace anywhere, exactly one
at-sign, a nonempty local part, and after the at-sign a dot having at least
one character on each side. -/
def emailShape (l : List Char) : Bool :=
  let a := l.takeWhile (fun c => c != '@')
  match l.dropWhile (fun c => c != '@') with
  | [] => false
  | _ :: t =>
    !a.isEmpty && a.all (fun c => !jsIsSpace c) &&
    !t.contains '@' && t.all (fun c => !jsIsSpace c) &&
    ((t.drop 1).dropLast.contains '.')

/-- The isEmail helper of Server.js: a non-string or falsy value fails;
otherwise the trimmed string must match the email RegExp. -/
def isEmail (s : String) : Bool := emailShape (jsTrim s).toList

/-- The isValidStudentId helper of Server.js: a non-string or falsy value
fails; otherwise the trimmed, upper-cased id must have length at least 3
and match the anchored RegExp class of capital letters and digits. -/
def isValidStudentId (s : String) : Bool :=
  if s == "" then false
  else
    let t := (jsTrimList s.toList).map Char.toUpper
    decide (3 ≤ t.length) &&
      t.all (fun c => ('A' ≤ c && c ≤ 'Z') || ('0' ≤ c && c ≤ '9'))

/-- The sanitizeInput helper of Server.js: non-strings become empty;
strings are trimmed and stripped of the characters that break HTML or
headers (angle brackets, double quote, apostrophe, ampersand). -/
def sanitizeInput (s : String) : String :=
  ⟨(jsTrimList s.toList).filter
    (fun c => !(c = '<' || c = '>' || c = '"' || c.val = 39 || c = '&'))⟩

/-- An outbound mail envelope as handed to transporter.sendMail; toAddr is
the to field of the mail options. -/
structure Email where
  toAddr : String
  subject : String
  text : String
  html : String
  deriving DecidableEq

/-- The ambient JavaScript runtime the server code calls into.
parse models Date parsing (some t is a valid epoch-ms time, none an Invalid
Date); nowMs is the clock at the moment of the call; fmtFull is the Intl
formatter with dateStyle full and timeStyle short in Asia/Kolkata; fmtDay
the Intl formatter with dateStyle full only; fmtLocale the
toLocaleString fallback used in the catch branch of formatIST; dryRun and
hasTransporter the DRY_RUN flag and whether a transporter was configured;
send the sendMail call, where an error value carries the message of the
rejected promise. -/
structure Env where
  parse : String → Option Nat
  nowMs : Nat
  fmtFull : Nat → String
  fmtDay : Nat → String
  fmtLocale : Nat → String
  dryRun : Bool
  hasTransporter : Bool
  send : Email → Except String Unit

/-- The formatIST helper of the enhanced Server.js: formats a timestamp for
Asia/Kolkata; an invalid date raises inside the try, and the catch
substitutes the current time via toLocaleString, so the function is total.
The argument none models the defaulted parameter, the current time. -/
def formatIST (env : Env) : Option String → String
  | none => env.fmtFull env.nowMs
  | some s =>
    match env.parse s with
    | some t => env.fmtFull t
    | none => env.fmtLocale env.nowMs

/-- A rendered notification: subject line, plain-text body, HTML body. -/
structure EmailContent where
  subject : String
  text : String
  html : String
  deriving DecidableEq

/-- The plain-text body template of buildAttendanceEmail. -/
def presentText (studentId studentName whenStr : String) : String :=
  "Dear Parent,\n\nYour child " ++ studentName ++ " (ID: " ++ studentId ++
  ") is marked PRESENT at Saamarthya Academy.\n\nDate & Time: " ++ whenStr ++
  "\n\nBest regards,\nSaamarthya Academy"

/-- The HTML body template of buildAttendanceEmail. -/
def presentHtml (studentId studentName whenStr : String) : String :=
  "\n  <div style=\"font-family:system-ui,-apple-system,Segoe UI,Roboto,Arial,sans-serif;color:#111827;line-height:1.6\">\n    <p>Dear Parent,</p>\n    <p>\n      Your child <strong>" ++
  studentName ++ "</strong> (ID: <strong>" ++ studentId ++
  "</strong>) is marked\n      <span style=\"display:inline-block;padding:4px 10px;border-radius:9999px;background:#d1fae5;color:#065f46;border:1px solid #a7f3d0;font-weight:700;\">\n        PRESENT\n      </span>\n      at Saamarthya Academy.\n    </p>\n    <p style=\"margin:12px 0 0 0;\"><strong>Date &amp; Time:</strong> " ++
  whenStr ++
  "</p>\n    <hr style=\"border:none;border-top:1px solid #e5e7eb;margin:16px 0\" />\n    <p style=\"margin:0\">Best regards,</p>\n    <p style=\"margin:0\"><strong>Saamarthya Academy</strong></p>\n  </div>"

/-- The record-to-content part of buildAttendanceEmail, once the formatted
time string is in hand. -/
def buildAttendanceEmailCore (studentId studentName whenStr : String) : EmailContent :=
  { subject := "Attendance: Present ✔️"
  , text := presentText studentId studentName whenStr
  , html := presentHtml studentId studentName whenStr }

/-- The buildAttendanceEmail function of Server.js: formats the timestamp
through formatIST (total, with a current-time fallback) and fills the
PRESENT templates. -/
def buildAttendanceEmail (env : Env) (studentId studentName : String)
    (whenISO : Option String) : EmailContent :=
  buildAttendanceEmailCore studentId studentName (formatIST env whenISO)

/-- The day-string computation at the top of buildAbsentEmail: Intl format
of the value of the expression that defaults a falsy dateISO to the current
time. A present but unparsable string yields an Invalid Date, and the Intl
format call then throws a RangeError, which this function surfaces as an
error value; buildAbsentEmail does not route through formatIST and has no
catch of its own. -/
def absentDayStr (env : Env) : Option String → Except String String
  | none => .ok (env.fmtDay env.nowMs)
  | some s =>
    if s == "" then .ok (env.fmtDay env.nowMs)
    else
      match env.parse s with
      | some t => .ok (env.fmtDay t)
      | none => .error "Invalid time value"

/-- The plain-text body template of buildAbsentEmail (enhanced variant). -/
def absentText (studentId studentName dayStr : String) : String :=
  "Dear Parent,\n\nThis is to inform you that " ++ studentName ++ " (ID: " ++
  studentId ++ ") was marked ABSENT at Saamarthya Academy.\n\nDate: " ++
  dayStr ++
  "\n\nIf this is unexpected, please contact the Institute administration.\n\nBest regards,\nSaamarthya Academy"

/-- The HTML body template of buildAbsentEmail. -/
def absentHtml (studentId studentName dayStr : String) : String :=
  "\n  <div style=\"font-family:system-ui,-apple-system,Segoe UI,Roboto,Arial,sans-serif;color:#111827;line-height:1.6\">\n    <p>Dear Parent,</p>\n    <p>\n      This is to inform you that <strong>" ++
  studentName ++ "</strong> (ID: <strong>" ++ studentId ++
  "</strong>) was marked\n      <span style=\"display:inline-block;padding:4px 10px;border-radius:9999px;background:#fee2e2;color:#991b1b;border:1px solid #fecaca;font-weight:700;\">\n        ABSENT\n      </span>\n      at Saamarthya Academy.\n    </p>\n    <p style=\"margin:12px 0 0 0;\"><strong>Date:</strong> " ++
  dayStr ++
  "</p>\n    <p style=\"margin:12px 0 0 0;\">If this is unexpected, please contact the school administration.</p>\n    <hr style=\"border:none;border-top:1px solid #e5e7eb;margin:16px 0\" />\n    <p style=\"margin:0\">Best regards,</p>\n    <p style=\"margin:0\"><strong>Saamarthya Academy</strong></p>\n  </div>"

/-- The record-to-content part of buildAbsentEmail, once the day string is
in hand. -/
def buildAbsentEmailCore (studentId studentName dayStr : String) : EmailContent :=
  { subject := "Attendance: Absent ❗"
  , text := absentText studentId studentName dayStr
  , html := absentHtml studentId studentName dayStr }

/-- The buildAbsentEmail function of Server.js: computes the day string
(which can throw on an unparsable timestamp) and fills the ABSENT
templates. -/
def buildAbsentEmail (env : Env) (studentId studentName : String)
    (dateISO : Option String) : Except String EmailContent :=
  (absentDayStr env dateISO).map (buildAbsentEmailCore studentId studentName)

/-- One element of the records array posted to /api/send-absent-emails, as
the handler destructures it; a field the JSON lacks is none. -/
structure AttendanceRecord where
  studentId : Option String
  studentName : Option String
  parentEmail : Option String
  dateISO : Option String
  deriving DecidableEq

/-- One entry of the results array of the batch response. -/
structure NotificationResult where
  studentId : Option String
  ok : Bool
  dryRun : Option Bool
  message : Option String
  deriving DecidableEq

/-- The 200 response body of the batch route. -/
structure BatchResult where
  ok : Bool
  sent : Nat
  total : Nat
  results : List NotificationResult
  deriving DecidableEq

/-- One invocation of the mail channel: the envelope, and whether it went
through the dry-run implementation (console log) rather than
transporter.sendMail. -/
structure SendCall where
  email : Email
  dry : Bool
  deriving DecidableEq

/-- The observable outcome of the batch route: a 400 client error, a 500
from the outer catch, or the 200 body. -/
inductive HttpResponse where
  | badRequest (message : String)
  | serverError (message : String)
  | success (r : BatchResult)
  deriving DecidableEq

/-- The per-record guard of the batch loop, positively stated. The handler
rejects when studentId, studentName or parentEmail is falsy or when
parentEmail fails isEmail; isValidStudentId is not consulted on this
path. -/
def batchFieldsOk (rec : AttendanceRecord) : Bool :=
  truthy rec.studentId && truthy rec.studentName && truthy rec.parentEmail &&
    isEmail (rec.parentEmail.getD "")

/-- The mail options the batch loop builds for an accepted record: the
rendered content addressed to the parentEmail of the record. -/
def envelopeOf (rec : AttendanceRecord) (content : EmailContent) : Email :=
  { toAddr := rec.parentEmail.getD "", subject := content.subject
  , text := content.text, html := content.html }

/-- One iteration of the batch loop: the guard either rejects the record
(an ok-false result, no mail-channel activity), or the absent notice is
rendered and pushed through the mail channel — the dry-run branch when
DRY_RUN is set or no transporter is configured, otherwise sendMail with its
own try/catch that converts a transport failure into an ok-false result.
A throw from the renderer escapes the iteration as an error value. The list
component records the mail-channel invocations of this record. -/
def processRecord (env : Env) (rec : AttendanceRecord) :
    Except String (NotificationResult × List SendCall) :=
  if !(batchFieldsOk rec) then
    .ok ({ studentId := rec.studentId, ok := false, dryRun := none
         , message := some "Invalid or missing fields" }, [])
  else
    match buildAbsentEmail env (rec.studentId.getD "") (rec.studentName.getD "") rec.dateISO with
    | .error e => .error e
    | .ok content =>
      if env.dryRun || !env.hasTransporter then
        .ok ({ studentId := rec.studentId, ok := true, dryRun := some true
             , message := none }, [{ email := envelopeOf rec content, dry := true }])
      else
        match env.send (envelopeOf rec content) with
        | .ok _ =>
          .ok ({ studentId := rec.studentId, ok := true, dryRun := none
               , message := none }, [{ email := envelopeOf rec content, dry := false }])
        | .error e =>
          .ok ({ studentId := rec.studentId, ok := false, dryRun := none
               , message := some (if e == "" then "send failed" else e) },
               [{ email := envelopeOf rec content, dry := false }])

/-- The state of the batch loop when it ends: either an uncaught throw
(with the results and the mail-channel trace accumulated before it), or
normal completion. -/
inductive BatchOutcome where
  | thrown (msg : String) (partialResults : List NotificationResult) (trace : List SendCall)
  | done (results : List NotificationResult) (trace : List SendCall)
  deriving DecidableEq

/-- The batch loop over the records array, in input order. -/
def runBatch (env : Env) : List AttendanceRecord → BatchOutcome
  | [] => .done [] []
  | rec :: rest =>
    match processRecord env rec with
    | .error e => .thrown e [] []
    | .ok (n, calls) =>
      match runBatch env rest with
      | .thrown e ns tr => .thrown e (n :: ns) (calls ++ tr)
      | .done ns tr => .done (n :: ns) (calls ++ tr)

/-- The POST /api/send-absent-emails handler: 400 unless records is a
non-empty array; then the loop; an uncaught throw reaches the outer catch
and yields the 500 body; otherwise the 200 body carries ok true,
sent as the count of ok-true results, total as the length of the results
array, and the results themselves. The second component is the trace of
mail-channel invocations the call performed. -/
def processBatch (env : Env) (records : Option (List AttendanceRecord)) :
    HttpResponse × List SendCall :=
  match records with
  | none => (.badRequest "records[] required", [])
  | some recs =>
    if recs.isEmpty then (.badRequest "records[] required", [])
    else
      match runBatch env recs with
      | .thrown _ _ tr => (.serverError "Internal error", tr)
      | .done ns tr =>
        (.success { ok := true, sent := (ns.filter (fun n => n.ok)).length
                  , total := ns.length, results := ns }, tr)

/-- The rate-limit store: a JS Map from caller id to the array of that
caller's request timestamps, as an insertion-ordered association list. -/
abbrev RateLimitMap := List (String × List Nat)

/-- Map.has. -/
def mapHas : RateLimitMap → String → Bool
  | [], _ => false
  | q :: rest, k => if q.1 = k then true else mapHas rest k

/-- Map.get, with the empty array for an absent key (the handler only reads
after ensuring the key is present). -/
def mapGet : RateLimitMap → String → List Nat
  | [], _ => []
  | q :: rest, k => if q.1 = k then q.2 else mapGet rest k

/-- Map.set: replaces the value of a present key in place (keys are unique
in a Map), else appends at the end, preserving insertion order. -/
def mapSet : RateLimitMap → String → List Nat → RateLimitMap
  | [], k, v => [(k, v)]
  | q :: rest, k, v => if q.1 = k then (k, v) :: rest else q :: mapSet rest k v

/-- The window length of the rate limiter, in milliseconds. -/
def RATE_LIMIT_WINDOW : Nat := 60000

/-- The cap on requests per caller per window. -/
def MAX_REQUESTS_PER_WINDOW : Nat := 20

/-- The body of the rateLimit middleware, parameterised by the two
constants: ensure the caller has an entry, filter its timestamps to the
trailing window, deny at or above the cap (leaving the stored array as it
was), else record the current time and allow. Returns the allow decision
and the updated store. -/
def rateLimitStep (window cap : Nat) (clientId : String) (now : Nat)
    (m : RateLimitMap) : Bool × RateLimitMap :=
  let m1 := if mapHas m clientId then m else mapSet m clientId []
  let validRequests := (mapGet m1 clientId).filter (fun t => now - t < window)
  if cap ≤ validRequests.length then (false, m1)
  else (true, mapSet m1 clientId (validRequests ++ [now]))

/-- The rateLimit middleware with the constants of Server.js. -/
def rateLimit (clientId : String) (now : Nat) (m : RateLimitMap) :
    Bool × RateLimitMap :=
  rateLimitStep RATE_LIMIT_WINDOW MAX_REQUESTS_PER_WINDOW clientId now m

/-- The number of a caller's recorded timestamps inside the trailing
window. -/
def countRecent (now window : Nat) (ts : List Nat) : Nat :=
  (ts.filter (fun t => now - t < window)).length

/-- Whether pat occurs at the start of the second list. -/
def startsWithL : List Char → List Char → Bool
  | [], _ => true
  | _ :: _, [] => false
  | c :: p, d :: l => c == d && startsWithL p l

/-- Whether pat occurs anywhere inside the second list. -/
def hasSubstr (pat : List Char) : List Char → Bool
  | [] => startsWithL pat []
  | c :: l => startsWithL pat (c :: l) || hasSubstr pat l

/-- Whether pat occurs as a substring of s. -/
def strContains (pat s : String) : Bool := hasSubstr pat.toList s.toList

/-- A concrete runtime environment for evaluation: the clock at the given
epoch-ms value, formatters that render the numeric time behind a marker, a
Date parser that accepts exactly the date string of the payload example in
Server.js, dry-run mode with no transporter. -/
def testEnv (n : Nat) : Env :=
  { parse := fun s => if s == "2025-08-25" then some 1756060200000 else none
  , nowMs := n
  , fmtFull := fun t => "full#" ++ toString t
  , fmtDay := fun t => "day#" ++ toString t
  , fmtLocale := fun t => "locale#" ++ toString t
  , dryRun := true
  , hasTransporter := false
  , send := fun _ => .ok () }

/-- The evaluation environment with the clock at zero. -/
def env0 : Env := testEnv 0

/-- A record whose parentEmail field is missing. -/
def recNoEmail : AttendanceRecord :=
  { studentId := some "SAH25009", studentName := some "Aditya Raj"
  , parentEmail := none, dateISO := none }

/-- A fully valid record carrying the payload example of Server.js. -/
def recGood : AttendanceRecord :=
  { studentId := some "SAH25009", studentName := some "Aditya Raj"
  , parentEmail := some "parent@example.com", dateISO := some "2025-08-25" }

/-- A field-wise truthy record whose dateISO does not parse as a date. -/
def recBadDate : AttendanceRecord :=
  { studentId := some "SAH25009", studentName := some "Aditya Raj"
  , parentEmail := some "parent@example.com", dateISO := some "not-a-date" }

/-- A record whose studentId is malformed under isValidStudentId (a single
lower-case letter) but truthy. -/
def recShortId : AttendanceRecord :=
  { studentId := some "a", studentName := some "Aditya Raj"
  , parentEmail := some "parent@example.com", dateISO := some "2025-08-25" }

/-- The rejection entry the batch loop produces for recNoEmail. -/
def rejectedNoEmail : NotificationResult :=
  { studentId := some "SAH25009", ok := false, dryRun := none
  , message := some "Invalid or missing fields" }

/-- The batch response body for the one-record batch of recNoEmail. -/
def batchResultNoEmail : BatchResult :=
  { ok := true, sent := 0, total := 1, results := [rejectedNoEmail] }

/-- The store after a single request by caller A at time zero. -/
def staleMap : RateLimitMap := (rateLimit "A" 0 []).2

/-- The store after the first scenario call (caller A, window 60000 ms,
cap 2, time 0). -/
def scenarioM1 : RateLimitMap := (rateLimitStep 60000 2 "A" 0 []).2

/-- The store after the second scenario call, at time 1000. -/
def scenarioM2 : RateLimitMap := (rateLimitStep 60000 2 "A" 1000 scenarioM1).2

/-- The store after the third scenario call, at time 2000 (denied). -/
def scenarioM3 : RateLimitMap := (rateLimitStep 60000 2 "A" 2000 scenarioM2).2


/-! ## Association-list facts about the rate-limit store -/

theorem mapGet_of_not_has (m : RateLimitMap) (k : String)
    (h : mapHas m k = false) : mapGet m k = [] := by
  induction m with
  | nil => rfl
  | cons q rest ih =>
    by_cases hq : q.1 = k
    · simp [mapHas, hq] at h
    · simp only [mapHas, hq, if_false] at h
      simp [mapGet, hq, ih h]

theorem mapGet_mapSet_self (m : RateLimitMap) (k : String) (v : List Nat) :
    mapGet (mapSet m k v) k = v := by
  induction m with
  | nil => simp [mapSet, mapGet]
  | cons q rest ih =>
    by_cases hq : q.1 = k
    · simp [mapSet, mapGet, hq]
    · simp [mapSet, mapGet, hq, ih]

theorem mapGet_ensure (m : RateLimitMap) (k : String) :
    mapGet (if mapHas m k then m else mapSet m k []) k = mapGet m k := by
  cases h : mapHas m k with
  | true => simp [h]
  | false => simp [h, mapGet_mapSet_self, mapGet_of_not_has m k h]

theorem rateLimitStep_fst (window cap : Nat) (clientId : String) (now : Nat)
    (m : RateLimitMap) :
    (rateLimitStep window cap clientId now m).1 =
      decide (countRecent now window (mapGet m clientId) < cap) := by
  simp only [rateLimitStep, mapGet_ensure, countRecent]
  split
  · next h => simp [Nat.not_lt.mpr h]
  · next h => simp [Nat.lt_of_not_le h]

theorem rateLimitStep_get (window cap : Nat) (clientId : String) (now : Nat)
    (m : RateLimitMap) :
    mapGet (rateLimitStep window cap clientId now m).2 clientId =
      if countRecent now window (mapGet m clientId) < cap
      then (mapGet m clientId).filter (fun t => now - t < window) ++ [now]
      else mapGet m clientId := by
  simp only [rateLimitStep, mapGet_ensure, countRecent]
  split
  · next h => simp [mapGet_ensure, Nat.not_lt.mpr h]
  · next h => simp [mapGet_mapSet_self, Nat.lt_of_not_le h]

/-! ## Facts about the batch loop -/

theorem processRecord_studentId (env : Env) (rec : AttendanceRecord)
    (n : NotificationResult) (calls : List SendCall)
    (h : processRecord env rec = .ok (n, calls)) :
    n.studentId = rec.studentId := by
  unfold processRecord at h
  split at h
  · obtain ⟨h1, h2⟩ := by simpa using h
    subst h1; rfl
  · split at h
    · cases h
    · split at h
      · obtain ⟨h1, h2⟩ := by simpa using h
        subst h1; rfl
      · split at h
        · obtain ⟨h1, h2⟩ := by simpa using h
          subst h1; rfl
        · obtain ⟨h1, h2⟩ := by simpa using h
          subst h1; rfl

theorem runBatch_done_spec (env : Env) :
    ∀ (recs : List AttendanceRecord) (ns : List NotificationResult)
      (tr : List SendCall),
      runBatch env recs = .done ns tr →
      ns.length = recs.length ∧
      ∀ (i : Nat) (rec : AttendanceRecord), recs[i]? = some rec →
        ∃ (n : NotificationResult) (calls : List SendCall),
          ns[i]? = some n ∧ processRecord env rec = .ok (n, calls) := by
  intro recs
  induction recs with
  | nil =>
    intro ns tr h
    simp only [runBatch] at h
    injection h with h1 h2
    subst h1
    exact ⟨rfl, by intro i rec hi; simp at hi⟩
  | cons rec rest ih =>
    intro ns tr h
    simp only [runBatch] at h
    cases hp : processRecord env rec with
    | error e => rw [hp] at h; cases h
    | ok pr =>
      obtain ⟨n, calls⟩ := pr
      rw [hp] at h
      cases hr : runBatch env rest with
      | thrown e ns2 tr2 => rw [hr] at h; cases h
      | done ns2 tr2 =>
        rw [hr] at h
        injection h with h1 h2
        subst h1
        obtain ⟨ihlen, ihget⟩ := ih ns2 tr2 hr
        refine ⟨by simp [ihlen], ?_⟩
        intro i rec2 hi
        cases i with
        | zero =>
          simp only [List.getElem?_cons_zero, Option.some.injEq] at hi
          subst hi
          exact ⟨n, calls, by simp, hp⟩
        | succ j =>
          simp only [List.getElem?_cons_succ] at hi ⊢
          exact ihget j rec2 hi

/-! ## The claims -/

/-- C1. The claim says the batch call never fails once given a non-empty
records array, every per-record problem being recorded as an ok-false entry
while processing continues. The code falls short: a record that passes the
field guard but carries a truthy, unparsable dateISO makes buildAbsentEmail
throw (Intl format of an Invalid Date), the throw reaches the outer catch,
and the call answers 500 Internal error with no BatchResult — here the
second record of three kills the call after the first was already
dispatched (the trace has exactly one send), and the third is never
processed. -/
theorem batch_call_fails_on_unparsable_date :
    (processBatch env0 (some [recGood, recBadDate, recGood])).1 =
      .serverError "Internal error"
    ∧ (processBatch env0 (some [recGood, recBadDate, recGood])).2.length = 1
    ∧ batchFieldsOk recBadDate = true :=
  ⟨rfl, rfl, rfl⟩

/-- C2. The claim says rendering is total, substituting the current time
when the supplied timestamp is unparsable. True for the present renderer
(formatIST catches and falls back, second conjunct), but buildAbsentEmail
formats the date without formatIST and without a catch, so a truthy
unparsable dateISO throws a RangeError instead of rendering. -/
theorem absent_render_throws_on_unparsable_timestamp :
    buildAbsentEmail env0 "SAH25009" "Aditya Raj" (some "not-a-date") =
      .error "Invalid time value"
    ∧ formatIST env0 (some "not-a-date") = "locale#0" :=
  ⟨rfl, rfl⟩

/-- C3 counterexample. A record whose studentId is "a" — rejected by
isValidStudentId — passes the batch guard, and the mail channel is invoked
for it (the trace has one entry and the record reports ok), refuting the
claim that the channel is never invoked for a record with a malformed
studentId. -/
theorem batch_sends_despite_malformed_studentId :
    isValidStudentId "a" = false
    ∧ (processBatch env0 (some [recShortId])).1 =
        .success { ok := true, sent := 1, total := 1
                 , results := [{ studentId := some "a", ok := true
                               , dryRun := some true, message := none }] }
    ∧ (processBatch env0 (some [recShortId])).2.length = 1 :=
  ⟨by decide, rfl, rfl⟩

/-- C3 (amended). In the batch path a record is either accepted by the
field guard — studentId, studentName and parentEmail truthy and parentEmail
of email shape; studentId format is not checked here — or it is rejected
with an ok-false result before any send attempt: the mail channel is not
invoked for a record failing this guard. -/
theorem batch_rejects_invalid_before_send (env : Env) (rec : AttendanceRecord)
    (h : batchFieldsOk rec = false) :
    processRecord env rec =
      .ok ({ studentId := rec.studentId, ok := false, dryRun := none
           , message := some "Invalid or missing fields" }, []) := by
  unfold processRecord
  simp [h]

/-- Witness for C3 (amended): the record with a missing parentEmail is
rejected before any send. -/
theorem batch_rejects_invalid_before_send_witness :
    processRecord env0 recNoEmail = .ok (rejectedNoEmail, []) :=
  batch_rejects_invalid_before_send env0 recNoEmail rfl

/-- C4. For every batch that runs to completion: sent counts the ok-true
results, total and the length of results equal the length of the input, and
results is order-preserving — entry i is the outcome of input record i,
echoing its studentId. -/
theorem batch_result_invariants (env : Env) (recs : List AttendanceRecord)
    (r : BatchResult) (tr : List SendCall)
    (h : processBatch env (some recs) = (.success r, tr)) :
    r.sent = (r.results.filter (fun n => n.ok)).length
    ∧ r.total = recs.length
    ∧ r.results.length = recs.length
    ∧ ∀ (i : Nat) (rec : AttendanceRecord), recs[i]? = some rec →
        ∃ (n : NotificationResult) (calls : List SendCall),
          r.results[i]? = some n ∧ processRecord env rec = .ok (n, calls)
          ∧ n.studentId = rec.studentId := by
  simp only [processBatch] at h
  split at h
  · injection h with h1 h2; cases h1
  · cases hr : runBatch env recs with
    | thrown e a b => rw [hr] at h; injection h with h1 h2; cases h1
    | done ns tr2 =>
      rw [hr] at h
      injection h with h1 h2
      injection h1 with h1
      subst h1
      obtain ⟨hlen, hget⟩ := runBatch_done_spec env recs ns tr2 hr
      refine ⟨rfl, hlen, hlen, ?_⟩
      intro i rec hi
      obtain ⟨n, calls, hn, hp⟩ := hget i rec hi
      exact ⟨n, calls, hn, hp, processRecord_studentId env rec n calls hp⟩

/-- Witness for C4: the completed one-record batch of recNoEmail has
total 1 and one result entry. -/
theorem batch_result_invariants_witness :
    batchResultNoEmail.total = 1 ∧ batchResultNoEmail.results.length = 1 := by
  have h := batch_result_invariants env0 [recNoEmail] batchResultNoEmail [] rfl
  exact ⟨h.2.1, h.2.2.1⟩

/-- C5. The claim (and the improvements document shipped with the
repository) says a background sweep on a fixed interval evicts stale
per-caller windows. No such sweep exists in Server.js: the only operation
touching the store is the rateLimit middleware itself, and it never removes
another caller's entry — after caller A's single request at time 0, any
amount of later traffic from caller B, at any time, leaves A's stale window
in the store unchanged. -/
theorem rate_map_never_swept :
    (∀ (now : Nat),
        mapGet (rateLimit "B" now staleMap).2 "A" = [0]
        ∧ mapHas (rateLimit "B" now staleMap).2 "A" = true)
    ∧ staleMap = [("A", [0])] :=
  ⟨fun _ => ⟨rfl, rfl⟩, rfl⟩

/-- C6. A call is allowed iff the caller's recorded timestamps inside the
trailing 60000 ms window number strictly below the cap of 20, and exactly
on allow the current timestamp is recorded (the stored array becomes the
filtered window plus now; on deny it is left unchanged). With window 60 s
and cap 2, the third call within the window is denied and a call past the
window is allowed again. -/
theorem rate_governor_allow_iff_and_scenario :
    (∀ (clientId : String) (now : Nat) (m : RateLimitMap),
        (rateLimit clientId now m).1 =
          decide (countRecent now RATE_LIMIT_WINDOW (mapGet m clientId) <
            MAX_REQUESTS_PER_WINDOW))
    ∧ (∀ (clientId : String) (now : Nat) (m : RateLimitMap),
        mapGet (rateLimit clientId now m).2 clientId =
          if countRecent now RATE_LIMIT_WINDOW (mapGet m clientId) <
              MAX_REQUESTS_PER_WINDOW
          then (mapGet m clientId).filter
                 (fun t => now - t < RATE_LIMIT_WINDOW) ++ [now]
          else mapGet m clientId)
    ∧ (rateLimitStep 60000 2 "A" 0 []).1 = true
    ∧ (rateLimitStep 60000 2 "A" 1000 scenarioM1).1 = true
    ∧ (rateLimitStep 60000 2 "A" 2000 scenarioM2).1 = false
    ∧ (rateLimitStep 60000 2 "A" 61000 scenarioM3).1 = true := by
  refine ⟨?_, ?_, by decide, by decide, by decide, by decide⟩
  · intro clientId now m
    exact rateLimitStep_fst RATE_LIMIT_WINDOW MAX_REQUESTS_PER_WINDOW clientId now m
  · intro clientId now m
    exact rateLimitStep_get RATE_LIMIT_WINDOW MAX_REQUESTS_PER_WINDOW clientId now m

/-- C7. A missing or non-array records value, and an empty array, are both
answered with the 400 client error and never with a BatchResult (the
response constructor is badRequest, not success), and no mail-channel
invocation happens. -/
theorem batch_rejects_empty_or_missing :
    ∀ (env : Env),
      processBatch env none = (.badRequest "records[] required", [])
      ∧ processBatch env (some []) = (.badRequest "records[] required", []) :=
  fun _ => ⟨rfl, rfl⟩

/-- C8. Subject lines are fixed per status kind — every present notice
carries one literal subject and every absent notice a different one — and
in the scenario with studentId SAH25009 and studentName Aditya Raj the
present subject is exactly that literal while the text body contains
Aditya Raj, SAH25009 and the word PRESENT. -/
theorem render_subjects_fixed_and_present_scenario :
    (∀ (env : Env) (studentId studentName : String) (whenISO : Option String),
        (buildAttendanceEmail env studentId studentName whenISO).subject =
          "Attendance: Present ✔️")
    ∧ (∀ (studentId studentName dayStr : String),
        (buildAbsentEmailCore studentId studentName dayStr).subject =
          "Attendance: Absent ❗")
    ∧ "Attendance: Present ✔️" ≠ "Attendance: Absent ❗"
    ∧ (buildAttendanceEmail env0 "SAH25009" "Aditya Raj" none).subject =
        "Attendance: Present ✔️"
    ∧ strContains "Aditya Raj"
        (buildAttendanceEmail env0 "SAH25009" "Aditya Raj" none).text = true
    ∧ strContains "SAH25009"
        (buildAttendanceEmail env0 "SAH25009" "Aditya Raj" none).text = true
    ∧ strContains "PRESENT"
        (buildAttendanceEmail env0 "SAH25009" "Aditya Raj" none).text = true := by
  refine ⟨fun _ _ _ _ => rfl, fun _ _ _ => rfl, by decide, rfl, ?_, ?_, ?_⟩
  all_goals rfl

/-- C9 counterexample. Rendering is not a function of the declared inputs
alone: with the dateISO argument absent, two absent renders with identical
inputs made under two clock values (time 0 and one day later) produce
different text bodies, so the outputs are not byte-identical. -/
theorem render_not_clock_independent :
    buildAbsentEmail (testEnv 0) "SAH25009" "Aditya Raj" none =
      .ok (buildAbsentEmailCore "SAH25009" "Aditya Raj" "day#0")
    ∧ buildAbsentEmail (testEnv 86400000) "SAH25009" "Aditya Raj" none =
      .ok (buildAbsentEmailCore "SAH25009" "Aditya Raj" "day#86400000")
    ∧ (buildAbsentEmailCore "SAH25009" "Aditya Raj" "day#0").text ≠
      (buildAbsentEmailCore "SAH25009" "Aditya Raj" "day#86400000").text :=
  ⟨rfl, rfl, by decide⟩

/-- C9 (amended). Rendering is deterministic given the ambient runtime:
two calls with identical inputs under one environment agree, and whenever
the supplied timestamp actually parses (and, for the absent notice, is
non-empty), the output does not depend on the clock at all — environments
agreeing on the parse and on the formatted value render identically. -/
theorem render_deterministic_given_environment :
    (∀ (env : Env) (studentId studentName : String) (whenISO : Option String),
        buildAttendanceEmail env studentId studentName whenISO =
          buildAttendanceEmail env studentId studentName whenISO)
    ∧ (∀ (e e2 : Env) (studentId studentName s : String) (t : Nat),
        e.parse s = some t → e2.parse s = some t →
        e.fmtFull t = e2.fmtFull t →
        buildAttendanceEmail e studentId studentName (some s) =
          buildAttendanceEmail e2 studentId studentName (some s))
    ∧ (∀ (e e2 : Env) (studentId studentName s : String) (t : Nat),
        e.parse s = some t → e2.parse s = some t →
        e.fmtDay t = e2.fmtDay t → s ≠ "" →
        buildAbsentEmail e studentId studentName (some s) =
          buildAbsentEmail e2 studentId studentName (some s)) := by
  refine ⟨fun _ _ _ _ => rfl, ?_, ?_⟩
  · intro e e2 studentId studentName s t h1 h2 h3
    simp only [buildAttendanceEmail, formatIST, h1, h2, h3]
  · intro e e2 studentId studentName s t h1 h2 h3 hs
    have hb : (s == "") = false := by
      cases hbe : s == ""
      · rfl
      · exact absurd (eq_of_beq hbe) hs
    simp only [buildAbsentEmail, absentDayStr, hb, Bool.false_eq_true,
      if_false, h1, h2, h3]

/-- C10. Whenever the batch call completes, the top-level response carries
ok true no matter what the per-record outcomes were; the one-record batch
whose record lacks a parentEmail completes with sent 0, its only result
ok-false, and still the top-level ok true. -/
theorem batch_top_level_ok (env : Env) (records : Option (List AttendanceRecord))
    (r : BatchResult) (tr : List SendCall)
    (h : processBatch env records = (.success r, tr)) : r.ok = true := by
  cases records with
  | none => injection h with h1 h2; cases h1
  | some recs =>
    simp only [processBatch] at h
    split at h
    · injection h with h1 h2; cases h1
    · cases hr : runBatch env recs with
      | thrown e a b => rw [hr] at h; injection h with h1 h2; cases h1
      | done ns tr2 =>
        rw [hr] at h
        injection h with h1 h2
        injection h1 with h1
        rw [← h1]

/-- Witness for C10: the completed all-rejected batch still reports
top-level ok true (with sent 0). -/
theorem batch_top_level_ok_witness : batchResultNoEmail.ok = true :=
  batch_top_level_ok env0 (some [recNoEmail]) batchResultNoEmail [] rfl

end Mooon
